import Mathlib

/-!
Verification of the reconciliation core of `src/database_manager.py`
(class `DatabaseManager`).

The embedding translates the Python methods into pure Lean functions:

* The MySQL store is a `DbStore`: a list of tables, each with a name, a
  table comment, a list of dynamically added period columns, and a list of
  rows `(vector_id, definition, cells)`.  An absent cell entry is SQL NULL.
* Python exceptions are values of `PyErr`.  Mutating methods return
  `DBState × Option PyErr`: the state reached at the moment of return or
  raise (every successful statement in the source is followed by
  `conn.commit()`, so committed work survives a later raise), together
  with the raised exception, if any.  Read-only catalog methods return
  `Except PyErr Bool`.
* Catalog methods take an extra leading `fault : Bool` argument injecting
  a transient store failure into their single read (`SQLAlchemyError`
  raised by `conn.execute`).  The pipeline calls them with `fault = false`.
* Two statements in the source are executed with mismatched bind
  parameters, which SQLAlchemy rejects client-side, before the store is
  touched: `_column_exists` declares `:date` but supplies `column_name`,
  and `_update_value` declares `:value` but supplies `date`.  These are
  embedded as unconditional `missingBindParam` errors.
* `_add_column` issues `ALTER TABLE ... ADD COLUMN `d`` with no column
  type, which the MySQL grammar rejects; embedded as an unconditional
  `malformedStatement` error.
* The `except` blocks of `_values_match` and `_create_table` are written
  `except SQLAlchemyError:` (no `as e`) yet reference `e`, so when they
  fire they raise `NameError`; embedded as `PyErr.nameError`.
* Values are embedded as `Option Rat` (`none` is SQL NULL / Python None);
  comparison is exact equality, matching Python `==` on the non-NaN floats
  the claims use.
-/

/-- Python values that can be passed where the source expects an
identifier: a `str`, an `int`, or `None`.  Used to state claims about
non-string inputs to `_validate_identifier`. -/
inductive PyVal where
  | pyStr (s : String)
  | pyInt (n : Int)
  | pyNone
  deriving DecidableEq

/-- Rendering of Python `type(x)` for the identifier error message of
`_validate_identifier` (the message embeds the type, not the value). -/
def pyTypeName : PyVal → String
  | .pyStr _ => "str"
  | .pyInt _ => "int"
  | .pyNone => "NoneType"

/-- Python `str(x)` for the values `update_database` turns into table
names (`table_name = str(product_id)`). -/
def pyStrOf : PyVal → String
  | .pyStr s => s
  | .pyInt n => toString n
  | .pyNone => "None"

/-- Payload of the `ValueError` raised by `_validate_identifier`: the
message carries the type for non-strings and the identifier itself for
strings that fail the pattern. -/
inductive IdErr where
  | notAString (typeName : String)
  | invalidChars (value : String)
  deriving DecidableEq

/-- Store-level errors (`SQLAlchemyError` subclasses) reachable in the
embedded methods. -/
inductive SqlErr where
  | missingBindParam (p : String)
  | malformedStatement
  | operationalError
  deriving DecidableEq

/-- Python exceptions observable from the embedded methods. -/
inductive PyErr where
  | valueError (e : IdErr)
  | sqlError (e : SqlErr)
  | nameError
  deriving DecidableEq

deriving instance DecidableEq for Except

/-- Characters allowed by the source pattern `[a-zA-Z0-9_]` (ASCII
letters, digits, underscore). -/
def isIdentChar (c : Char) : Bool := c.isAlphanum || c == '_'

/-- Nonempty run of identifier characters. -/
def identRun (cs : List Char) : Bool := !cs.isEmpty && cs.all isIdentChar

/-- Truth value of Python `re.match(r"^[a-zA-Z0-9_]+$", s)`.  Python's
`$` matches at the end of the string or just before one newline at the
end of the string, so a single trailing newline after a nonempty
identifier run is also accepted. -/
def pyIdentMatch (s : String) : Bool :=
  identRun s.data || (s.data.getLast? == some '\n' && identRun s.data.dropLast)

/-- Embeds `DatabaseManager._validate_identifier`: a non-string raises
`ValueError` carrying the type; a string failing the pattern raises
`ValueError` carrying the identifier; otherwise the check passes. -/
def validate_identifier (identifier : PyVal) : Except PyErr Unit :=
  match identifier with
  | .pyStr s =>
      if pyIdentMatch s then .ok ()
      else .error (.valueError (.invalidChars s))
  | other => .error (.valueError (.notAString (pyTypeName other)))

/-- One row of a table: the `vector_id` primary key, the `definition`
text column, and the values of the dynamically added period columns (an
absent entry is NULL). -/
structure DbRow where
  vector_id : Int
  definition : String
  cells : List (String × Option Rat)
  deriving DecidableEq

/-- One table: name, table comment, dynamically added period columns in
creation order, and rows in insertion order. -/
structure DbTable where
  name : String
  comment : String
  columns : List String
  rows : List DbRow
  deriving DecidableEq

/-- The relational store: the tables of the configured database. -/
structure DbStore where
  tables : List DbTable
  deriving DecidableEq

/-- Counters of `DatabaseManager.stats`. -/
structure DbStats where
  tables_created : Nat
  vectors_added : Nat
  columns_added : Nat
  values_added : Nat
  values_updated : Nat
  deriving DecidableEq

/-- State of a `DatabaseManager` instance: the store behind its engine
and its `stats` dictionary. -/
structure DBState where
  store : DbStore
  stats : DbStats
  deriving DecidableEq

def zeroStats : DbStats := ⟨0, 0, 0, 0, 0⟩

def DbStore.getTable (s : DbStore) (n : String) : Option DbTable :=
  s.tables.find? (fun t => t.name == n)

/-- Replace the table of the given name (used after row inserts). -/
def DbStore.setTable (s : DbStore) (t : DbTable) : DbStore :=
  ⟨s.tables.map (fun u => if u.name == t.name then t else u)⟩

def DbTable.getRow (t : DbTable) (vid : Int) : Option DbRow :=
  t.rows.find? (fun r => r.vector_id == vid)

/-- Value stored for a row at a period column; never-written cells read
as NULL. -/
def DbRow.getCell (r : DbRow) (c : String) : Option Rat :=
  match r.cells.find? (fun p => p.1 == c) with
  | some p => p.2
  | none => none

/-- Embeds `DatabaseManager._table_exists`: validate the table name, then
one read of `INFORMATION_SCHEMA.TABLES` (correctly bound); a store error
during the read is caught, logged and turned into `False`. -/
def table_exists (fault : Bool) (st : DBState) (table_name : PyVal) :
    Except PyErr Bool :=
  match validate_identifier table_name with
  | .error e => .error e
  | .ok () =>
      if fault then .ok false
      else .ok (st.store.getTable (pyStrOf table_name)).isSome

/-- Embeds `DatabaseManager._vector_exists`: validate the table name,
then one `SELECT` for the row (vector id correctly bound); any store
error — the injected fault or a missing table — is caught and turned
into `False`. -/
def vector_exists (fault : Bool) (st : DBState) (table_name : PyVal)
    (vector_id : Int) : Except PyErr Bool :=
  match validate_identifier table_name with
  | .error e => .error e
  | .ok () =>
      if fault then .ok false
      else
        match st.store.getTable (pyStrOf table_name) with
        | none => .ok false
        | some t => .ok (t.getRow vector_id).isSome

/-- Embeds `DatabaseManager._column_exists`.  The query declares the
placeholder `:date` but the parameters are supplied under the key
`column_name`, so SQLAlchemy raises a missing-bind-parameter error on
every call, before the store is read; the `except SQLAlchemyError`
handler catches it (and likewise the injected fault) and returns
`False`.  The store contents are never consulted. -/
def column_exists (fault : Bool) (st : DBState) (table_name date : PyVal) :
    Except PyErr Bool :=
  match validate_identifier table_name with
  | .error e => .error e
  | .ok () =>
  match validate_identifier date with
  | .error e => .error e
  | .ok () => .ok false

/-- Embeds `DatabaseManager._values_match`: validate both identifiers,
then one `SELECT` of the cell.  A missing row reads as no match.  A store
error — the injected fault, a missing table, or a missing column — fires
the handler `except SQLAlchemyError:` whose body references the unbound
name `e`, raising `NameError`. -/
def values_match (fault : Bool) (st : DBState) (table_name : PyVal)
    (vector_id : Int) (date : PyVal) (value : Option Rat) :
    Except PyErr Bool :=
  match validate_identifier table_name with
  | .error e => .error e
  | .ok () =>
  match validate_identifier date with
  | .error e => .error e
  | .ok () =>
      if fault then .error .nameError
      else
        match st.store.getTable (pyStrOf table_name) with
        | none => .error .nameError
        | some t =>
            if t.columns.contains (pyStrOf date) then
              match t.getRow vector_id with
              | none => .ok false
              | some r => .ok (decide (r.getCell (pyStrOf date) = value))
            else .error .nameError

/-- Embeds the comment escaping of `_create_table`, which is Python
`definition.replace` of one single-quote character by two; for a
one-character pattern this is the character-wise doubling below. -/
def escapeQuotes : List Char -> List Char
  | [] => []
  | c :: rest =>
      if c = Char.ofNat 39 then c :: c :: escapeQuotes rest
      else c :: escapeQuotes rest

/-- Quote-doubled definition string (`safe_definition` in the source). -/
def safeDefinition (s : String) : String := String.mk (escapeQuotes s.data)

/-- Embeds `DatabaseManager._create_table`: validate the name; if
`_table_exists` reports the table absent, `CREATE TABLE` it with the two
fixed columns and the (quote-doubled) definition as table comment, commit,
and bump `tables_created`; otherwise skip.  With a valid fresh name the
statement succeeds, so the `except` branch (whose handler would itself
raise `NameError` on the unbound `e`) is not reached. -/
def create_table (st : DBState) (table_name : PyVal) (definition : String) :
    DBState × Option PyErr :=
  match validate_identifier table_name with
  | .error e => (st, some e)
  | .ok () =>
    match table_exists false st table_name with
    | .error e => (st, some e)
    | .ok true => (st, none)
    | .ok false =>
        let safe_definition := safeDefinition definition
        let t : DbTable := ⟨pyStrOf table_name, safe_definition, [], []⟩
        ({ store := ⟨st.store.tables ++ [t]⟩,
           stats := { st.stats with
                      tables_created := st.stats.tables_created + 1 } },
         none)

/-- Embeds `DatabaseManager._add_vector`: validate the name, `INSERT` the
row (both parameters correctly bound), commit, bump `vectors_added`; an
empty definition falls back to the sentinel (`definition or
"No Definition"`).  A store error — missing table or duplicate primary
key — is logged and re-raised. -/
def add_vector (st : DBState) (table_name : PyVal) (vector_id : Int)
    (definition : String) : DBState × Option PyErr :=
  match validate_identifier table_name with
  | .error e => (st, some e)
  | .ok () =>
    match st.store.getTable (pyStrOf table_name) with
    | none => (st, some (.sqlError .operationalError))
    | some t =>
        if (t.getRow vector_id).isSome then
          (st, some (.sqlError .operationalError))
        else
          let d := if definition = "" then "No Definition" else definition
          let t2 := { t with rows := t.rows ++ [⟨vector_id, d, []⟩] }
          ({ store := st.store.setTable t2,
             stats := { st.stats with
                        vectors_added := st.stats.vectors_added + 1 } },
           none)

/-- Embeds `DatabaseManager._add_column`.  The statement is
`ALTER TABLE `t` ADD COLUMN `d`` with no column type, which the MySQL
grammar rejects on every call; the handler logs and re-raises, so the
method never succeeds and `columns_added` is never incremented. -/
def add_column (st : DBState) (table_name date : PyVal) :
    DBState × Option PyErr :=
  match validate_identifier table_name with
  | .error e => (st, some e)
  | .ok () =>
  match validate_identifier date with
  | .error e => (st, some e)
  | .ok () => (st, some (.sqlError .malformedStatement))

/-- Embeds `DatabaseManager._update_value`.  The query declares the
placeholders `:value` and `:vector_id` but the parameters are supplied
under the keys `date` and `vector_id`, so SQLAlchemy raises a
missing-bind-parameter error for `value` on every call, before the store
is touched; the handler logs and re-raises.  No cell is ever written. -/
def update_value (st : DBState) (table_name : PyVal) (vector_id : Int)
    (date : PyVal) (value : Option Rat) : DBState × Option PyErr :=
  match validate_identifier table_name with
  | .error e => (st, some e)
  | .ok () =>
  match validate_identifier date with
  | .error e => (st, some e)
  | .ok () => (st, some (.sqlError (.missingBindParam "value")))

/-- Embeds `DatabaseManager._process_series`: for each `(date, value)`
pair in input order, skip the pair if the date fails validation
(`except ValueError: continue`); otherwise branch on `_column_exists`:
if absent, `_add_column` then `_update_value` then bump `values_added`;
if present, `_update_value` and bump `values_updated` unless
`_values_match`.  Any store error raised by the helpers propagates. -/
def process_series (table_name : PyVal) (vector_id : Int) :
    DBState → List (PyVal × Option Rat) → DBState × Option PyErr
  | st, [] => (st, none)
  | st, (date, value) :: rest =>
    match validate_identifier date with
    | .error _ => process_series table_name vector_id st rest
    | .ok () =>
      match column_exists false st table_name date with
      | .error e => (st, some e)
      | .ok false =>
          match add_column st table_name date with
          | (st1, some e) => (st1, some e)
          | (st1, none) =>
            match update_value st1 table_name vector_id date value with
            | (st2, some e) => (st2, some e)
            | (st2, none) =>
                let st3 := { st2 with
                  stats := { st2.stats with
                             values_added := st2.stats.values_added + 1 } }
                process_series table_name vector_id st3 rest
      | .ok true =>
          match values_match false st table_name vector_id date value with
          | .error e => (st, some e)
          | .ok true => process_series table_name vector_id st rest
          | .ok false =>
            match update_value st table_name vector_id date value with
            | (st1, some e) => (st1, some e)
            | (st1, none) =>
                let st2 := { st1 with
                  stats := { st1.stats with
                             values_updated := st1.stats.values_updated + 1 } }
                process_series table_name vector_id st2 rest

/-- Embeds `DatabaseManager._process_vector`: insert the row with its
definition (sentinel on a lookup miss) when `_vector_exists` reports it
absent, then process the series. -/
def process_vector (table_name : PyVal) (vector_id : Int)
    (series : List (PyVal × Option Rat)) (definitions : List (Int × String))
    (st : DBState) : DBState × Option PyErr :=
  match vector_exists false st table_name vector_id with
  | .error e => (st, some e)
  | .ok true => process_series table_name vector_id st series
  | .ok false =>
      let vector_definition :=
        (definitions.lookup vector_id).getD "No Definition"
      match add_vector st table_name vector_id vector_definition with
      | (st1, some e) => (st1, some e)
      | (st1, none) => process_series table_name vector_id st1 series

/-- Input type of `update_database`: collection id, then per series id
the ordered period/value pairs, in dictionary insertion order. -/
abbrev InputData := List (PyVal × List (Int × List (PyVal × Option Rat)))

/-- Python `definitions.get(product_id, "No Definition")` against the
`dict[int, str]` definitions mapping: only an `int` key can hit. -/
def defsGet (definitions : List (Int × String)) : PyVal → String
  | .pyInt n => (definitions.lookup n).getD "No Definition"
  | _ => "No Definition"

/-- Inner loop of `update_database` over the vectors of one collection. -/
def process_vectors (table_name : PyVal) (definitions : List (Int × String)) :
    DBState → List (Int × List (PyVal × Option Rat)) → DBState × Option PyErr
  | st, [] => (st, none)
  | st, (vector_id, series) :: rest =>
    match process_vector table_name vector_id series definitions st with
    | (st1, some e) => (st1, some e)
    | (st1, none) => process_vectors table_name definitions st1 rest

/-- Outer loop of `update_database` over the collections: derive the
table name by `str(product_id)`, skip the collection when it fails
validation (`except ValueError: continue`), otherwise create the table
if needed and process its vectors.  Any exception raised by the body
aborts the loop and propagates (the source catches `SQLAlchemyError`
only to log and re-raise it; other exceptions propagate uncaught). -/
def update_loop (definitions : List (Int × String)) :
    DBState → InputData → DBState × Option PyErr
  | st, [] => (st, none)
  | st, (product_id, vectors) :: rest =>
    let table_name := PyVal.pyStr (pyStrOf product_id)
    match validate_identifier table_name with
    | .error _ => update_loop definitions st rest
    | .ok () =>
      let product_definition := defsGet definitions product_id
      match create_table st table_name product_definition with
      | (st1, some e) => (st1, some e)
      | (st1, none) =>
        match process_vectors table_name definitions st1 vectors with
        | (st2, some e) => (st2, some e)
        | (st2, none) => update_loop definitions st2 rest

/-- Observable outcome of one `update_database` call: the manager state
when the call returns or raises, the raised exception if any, and
whether `_log_stats` ran (it runs only when the loop completes without
an exception). -/
structure RunResult where
  state : DBState
  err : Option PyErr
  summaryLogged : Bool
  deriving DecidableEq

/-- Embeds `DatabaseManager.update_database`: run the reconciliation
loop; on completion log the stats summary, on an exception propagate it
without logging the summary (the counters keep the partial counts of the
work committed before the abort). -/
def update_database (st : DBState) (data : InputData)
    (definitions : List (Int × String)) : RunResult :=
  match update_loop definitions st data with
  | (st1, none) => ⟨st1, none, true⟩
  | (st1, some e) => ⟨st1, some e, false⟩

/-- Fresh manager against an empty database, counters zeroed. -/
def emptyState : DBState := ⟨⟨[]⟩, zeroStats⟩

/-- Scenario A data from the spec:
`{98900001: {1: {"2020": 1.0, "2021": 2.0}}}`. -/
def scenarioAData : InputData :=
  [(.pyInt 98900001,
    [(1, [(.pyStr "2020", some 1), (.pyStr "2021", some 2)])])]

/-- Scenario A definitions from the spec:
`{98900001: "GDP", 1: "GDP Vector"}`. -/
def scenarioADefs : List (Int × String) := [(98900001, "GDP"), (1, "GDP Vector")]

/-- Store state reached by running Scenario A against the empty store:
the table and its row were committed before the run aborted; no period
column and no value ever lands. -/
def scenarioAStore : DbStore := ⟨[⟨"98900001", "GDP", [], [⟨1, "GDP Vector", []⟩]⟩]⟩

/-- Helper: with both identifiers accepted, `_column_exists` answers
`False` whatever the store holds and whether or not the read faults, as
its bind-parameter mismatch is caught by its own handler. -/
theorem column_exists_ok_false (fault : Bool) (st : DBState)
    (table_name date : PyVal)
    (h1 : validate_identifier table_name = .ok ())
    (h2 : validate_identifier date = .ok ()) :
    column_exists fault st table_name date = .ok false := by
  simp [column_exists, h1, h2]

/-- C9: the column-existence check binds its parameters under the key
`column_name` while the query text declares the placeholder `:date`, so
for every valid table name and column name `_column_exists` raises a
bind error internally, catches it, and returns `False` — it reports
every column as absent regardless of the store's actual contents (the
store and the fault flag do not appear on the right-hand side). -/
theorem c9_column_exists_always_false (fault : Bool) (st : DBState)
    (table_name date : PyVal)
    (h1 : validate_identifier table_name = .ok ())
    (h2 : validate_identifier date = .ok ()) :
    column_exists fault st table_name date = .ok false :=
  column_exists_ok_false fault st table_name date h1 h2

/-- Witness for C9: a store whose table `1` really does have the column
`2020` is still told the column is absent. -/
theorem c9_witness :
    column_exists false ⟨⟨[⟨"1", "", ["2020"], []⟩]⟩, zeroStats⟩
      (.pyStr "1") (.pyStr "2020") = .ok false :=
  c9_column_exists_always_false false _ _ _ (by decide) (by decide)

/-- C10: the cell-write operation binds its parameters under the keys
`date` and `vector_id` while the query text declares the placeholders
`:value` and `:vector_id`, so on every call that passes identifier
validation `_update_value` fails with a missing-bind-parameter error for
`value` and re-raises it, and on every input whatsoever the call raises
with the state unchanged — no cell value is ever successfully written
through this operation. -/
theorem c10_update_value_never_writes :
    (∀ st table_name vector_id date value,
        validate_identifier table_name = .ok () →
        validate_identifier date = .ok () →
        update_value st table_name vector_id date value =
          (st, some (.sqlError (.missingBindParam "value")))) ∧
    (∀ st table_name vector_id date value,
        (update_value st table_name vector_id date value).1 = st ∧
        (update_value st table_name vector_id date value).2 ≠ none) := by
  constructor
  · intro st t vid d v h1 h2
    simp [update_value, h1, h2]
  · intro st t vid d v
    unfold update_value
    cases h1 : validate_identifier t with
    | error e => simp
    | ok u =>
      cases u
      cases h2 : validate_identifier d with
      | error e => simp
      | ok u => cases u; simp

/-- Witness for C10: the concrete write of Scenario A's first cell fails
with the missing `value` bind parameter. -/
theorem c10_witness :
    update_value emptyState (.pyStr "98900001") 1 (.pyStr "2020") (some 1) =
      (emptyState, some (.sqlError (.missingBindParam "value"))) :=
  c10_update_value_never_writes.1 _ _ _ _ _ (by decide) (by decide)

/-- C1 (code bug): on Scenario A input the first run already aborts with
a store error (the `ALTER TABLE ... ADD COLUMN` statement carries no
column type), after committing the table and the row, and a second run
by a fresh manager over the resulting store aborts at the same
statement.  Reconciliation therefore never completes, against the spec's
requirement that a repeated run completes with zero mutations; the
second run's counters are zero only because no column or value statement
can ever succeed. -/
theorem c1_runs_abort_instead_of_idempotent_success :
    (update_database emptyState scenarioAData scenarioADefs).err =
      some (.sqlError .malformedStatement) ∧
    update_database ⟨(update_database emptyState scenarioAData scenarioADefs).state.store, zeroStats⟩
        scenarioAData scenarioADefs =
      ⟨⟨scenarioAStore, zeroStats⟩, some (.sqlError .malformedStatement), false⟩ := by
  decide

/-- C2 (code bug): Scenario A against the empty store does not complete
with stats (1, 1, 2, 2, 0); it commits the table (comment "GDP") and the
row (definition "GDP Vector"), then aborts at the first
`ALTER TABLE ... ADD COLUMN` statement, leaving stats (1, 1, 0, 0, 0),
no period columns and no values. -/
theorem c2_scenario_a_aborts :
    update_database emptyState scenarioAData scenarioADefs =
      ⟨⟨scenarioAStore, ⟨1, 1, 0, 0, 0⟩⟩, some (.sqlError .malformedStatement),
        false⟩ := by
  decide

/-- Store for C3: table `1` already has column `2020` and its row
`vector_id = 1` already stores the value 1 there. -/
def c3Store : DbStore :=
  ⟨[⟨"1", "", ["2020"], [⟨1, "No Definition", [("2020", some 1)]⟩]⟩]⟩

/-- C3 (code bug): resupplying the already-stored value 1 for the
existing cell (series 1, period 2020) is not skipped.  The stored value
does equal the supplied one (first conjunct), but `_column_exists`
reports the existing column absent (its bind-parameter mismatch), so
`_process_series` takes the add-column path and aborts at the malformed
`ALTER TABLE` statement instead of comparing and skipping; and on the
compare path the update statement itself could never write (missing
`:value` bind).  `values_updated` stays 0 and the run raises. -/
theorem c3_resupplied_value_not_skipped :
    values_match false ⟨c3Store, zeroStats⟩ (.pyStr "1") 1 (.pyStr "2020")
        (some 1) = .ok true ∧
    process_series (.pyStr "1") 1 ⟨c3Store, zeroStats⟩
        [(.pyStr "2020", some 1)] =
      (⟨c3Store, zeroStats⟩, some (.sqlError .malformedStatement)) := by
  decide

/-- Data for C4: an invalid collection id followed by a valid collection
with one series and one valid period. -/
def c4Data : InputData :=
  [(.pyStr "98;DROP", [(1, [(.pyStr "2020", some 1)])]),
   (.pyInt 123, [(1, [(.pyStr "2020", some 1)])])]

/-- C4 (code bug): the invalid collection id `98;DROP` is indeed skipped
with no mutation — run alone it leaves the store untouched and completes
(first conjunct) — but on input that also contains a valid collection
the run does not continue to completion: after skipping `98;DROP` it
creates table `123`, inserts the row, and then aborts at the malformed
`ALTER TABLE` statement, so the claim's "processing of the remaining
collections, series and periods continues — the run does not abort"
fails. -/
theorem c4_run_aborts_after_skip :
    update_database emptyState [(.pyStr "98;DROP", [(1, [(.pyStr "2020", some 1)])])] [] =
      ⟨emptyState, none, true⟩ ∧
    update_database emptyState c4Data [] =
      ⟨⟨⟨[⟨"123", "No Definition", [], [⟨1, "No Definition", []⟩]⟩]⟩,
          ⟨1, 1, 0, 0, 0⟩⟩,
        some (.sqlError .malformedStatement), false⟩ := by
  decide

/-- Counterexample to C5: the Scenario A run fails partway, yet the
store is not left in its pre-run state — the table created earlier in
the run is still there, so the mutations already performed were not
rolled back. -/
theorem c5_counterexample :
    (update_database emptyState scenarioAData scenarioADefs).err.isSome = true ∧
    (update_database emptyState scenarioAData scenarioADefs).state.store ≠
      emptyState.store := by
  decide

/-- C5 amended: there is no whole-run transaction — every statement of
`_create_table`, `_add_vector`, `_add_column` and `_update_value` is
followed by its own `conn.commit()`, so when a later statement fails the
mutations already committed persist.  Concretely the aborted Scenario A
run leaves the committed table and row behind. -/
theorem c5_amended_per_statement_commits_persist :
    (update_database emptyState scenarioAData scenarioADefs).err =
      some (.sqlError .malformedStatement) ∧
    (update_database emptyState scenarioAData scenarioADefs).state.store =
      scenarioAStore := by
  decide

/-- Counterexample to C6: table `t` exists in the store, but a transient
store error during `_table_exists`'s read is caught and converted into
the boolean answer `False` instead of surfacing as a catalog error. -/
theorem c6_counterexample :
    table_exists true ⟨⟨[⟨"t", "", [], []⟩]⟩, zeroStats⟩ (.pyStr "t") =
      .ok false := by
  decide

/-- C6 amended: each of the four catalog queries validates its
identifier arguments first, propagating the identifier-validation error,
and performs at most a single read with no retry; but a transient store
error during the read is not surfaced as a catalog error: the
table/row/column existence checks catch it and answer `False` (the
column check always fails internally on its bind mismatch and answers
`False` regardless), while the value-comparison query's handler
references an unbound name and raises a `NameError`. -/
theorem c6_amended_catalog_error_handling :
    (∀ fault st t e, validate_identifier t = .error e →
        table_exists fault st t = .error e) ∧
    (∀ fault st t vid e, validate_identifier t = .error e →
        vector_exists fault st t vid = .error e) ∧
    (∀ fault st t d e, validate_identifier t = .ok () →
        validate_identifier d = .error e →
        column_exists fault st t d = .error e) ∧
    (∀ fault st t vid d v e, validate_identifier t = .ok () →
        validate_identifier d = .error e →
        values_match fault st t vid d v = .error e) ∧
    (∀ st t, validate_identifier t = .ok () →
        table_exists true st t = .ok false) ∧
    (∀ st t vid, validate_identifier t = .ok () →
        vector_exists true st t vid = .ok false) ∧
    (∀ fault st t d, validate_identifier t = .ok () →
        validate_identifier d = .ok () →
        column_exists fault st t d = .ok false) ∧
    (∀ st t vid d v, validate_identifier t = .ok () →
        validate_identifier d = .ok () →
        values_match true st t vid d v = .error .nameError) := by
  refine ⟨?_, ?_, ?_, ?_, ?_, ?_, ?_, ?_⟩
  · intro fault st t e h; simp [table_exists, h]
  · intro fault st t vid e h; simp [vector_exists, h]
  · intro fault st t d e h1 h2; simp [column_exists, h1, h2]
  · intro fault st t vid d v e h1 h2; simp [values_match, h1, h2]
  · intro st t h; simp [table_exists, h]
  · intro st t vid h; simp [vector_exists, h]
  · intro fault st t d h1 h2; exact column_exists_ok_false fault st t d h1 h2
  · intro st t vid d v h1 h2; simp [values_match, h1, h2]

/-- Witness for C6 amended: concrete instances — an invalid table name
propagates out of `_table_exists` as the validation error, and a faulted
read makes `_table_exists` answer `False` and `_values_match` raise the
`NameError`. -/
theorem c6_witness :
    table_exists false emptyState (.pyStr "a;b") =
      .error (.valueError (.invalidChars "a;b")) ∧
    table_exists true emptyState (.pyStr "t") = .ok false ∧
    values_match true emptyState (.pyStr "t") 1 (.pyStr "d") none =
      .error .nameError :=
  ⟨c6_amended_catalog_error_handling.1 false emptyState _ _ (by decide),
   c6_amended_catalog_error_handling.2.2.2.2.1 emptyState _ (by decide),
   c6_amended_catalog_error_handling.2.2.2.2.2.2.2 emptyState _ 1 _ none
     (by decide) (by decide)⟩

/-- Counterexample to C7: the Scenario A run is aborted by an error and
no five-counter summary is produced (`_log_stats` is only reached when
the loop completes). -/
theorem c7_counterexample :
    (update_database emptyState scenarioAData scenarioADefs).err.isSome = true ∧
    (update_database emptyState scenarioAData scenarioADefs).summaryLogged =
      false := by
  decide

/-- C7 amended: the five-counter summary is produced exactly when the
run completes without an exception; an aborted run produces no summary,
though the manager's counters keep the partial counts of the work
committed before the abort. -/
theorem c7_amended_summary_iff_success (st : DBState) (data : InputData)
    (definitions : List (Int × String)) :
    (update_database st data definitions).summaryLogged = true ↔
    (update_database st data definitions).err = none := by
  unfold update_database
  rcases update_loop definitions st data with ⟨st1, e⟩
  cases e <;> simp

/-- Counterexample to C8: the string `"ab\n"` contains a character
outside `[A-Za-z0-9_]` yet validation succeeds, because Python
`re.match`'s `$` also matches just before one newline at the end of the
string; and a non-string input fails with an error that carries only the
offending type, not the offending value. -/
theorem c8_counterexample :
    validate_identifier (.pyStr "ab\n") = .ok () ∧
    validate_identifier (.pyInt 5) =
      .error (.valueError (.notAString "int")) := by
  decide

/-- C8 amended: `_validate_identifier` succeeds exactly on strings
accepted by Python `re.match` of `^[a-zA-Z0-9_]+$` — a nonempty run of
allowed characters, optionally followed by a single trailing newline;
any other string fails with a `ValueError` carrying the offending value,
and any non-string fails with a `ValueError` carrying the offending
type; and in every mutating operation the check runs before the schema
mutation, so a rejected identifier leaves the state unchanged and the
mutation unattempted. -/
theorem c8_amended_validator_contract :
    (∀ s, validate_identifier (.pyStr s) = .ok () ↔ pyIdentMatch s = true) ∧
    (∀ s, pyIdentMatch s = false →
        validate_identifier (.pyStr s) =
          .error (.valueError (.invalidChars s))) ∧
    (∀ n : Int, validate_identifier (.pyInt n) =
        .error (.valueError (.notAString "int"))) ∧
    (validate_identifier .pyNone =
        .error (.valueError (.notAString "NoneType"))) ∧
    (∀ st t d e, validate_identifier t = .error e →
        create_table st t d = (st, some e)) ∧
    (∀ st t vid d e, validate_identifier t = .error e →
        add_vector st t vid d = (st, some e)) ∧
    (∀ st t d e, validate_identifier t = .error e →
        add_column st t d = (st, some e)) ∧
    (∀ st t d e, validate_identifier t = .ok () →
        validate_identifier d = .error e →
        add_column st t d = (st, some e)) ∧
    (∀ st t vid d v e, validate_identifier t = .error e →
        update_value st t vid d v = (st, some e)) ∧
    (∀ st t vid d v e, validate_identifier t = .ok () →
        validate_identifier d = .error e →
        update_value st t vid d v = (st, some e)) := by
  refine ⟨?_, ?_, ?_, ?_, ?_, ?_, ?_, ?_, ?_, ?_⟩
  · intro s
    by_cases h : pyIdentMatch s = true <;> simp [validate_identifier, h]
  · intro s h
    simp [validate_identifier, h]
  · intro n; rfl
  · rfl
  · intro st t d e h; simp [create_table, h]
  · intro st t vid d e h; simp [add_vector, h]
  · intro st t d e h; simp [add_column, h]
  · intro st t d e h1 h2; simp [add_column, h1, h2]
  · intro st t vid d v e h; simp [update_value, h]
  · intro st t vid d v e h1 h2; simp [update_value, h1, h2]

/-- Witness for C8 amended: concrete instances — the valid identifier
`abc_1` is accepted, the invalid identifier `a;b` is rejected carrying
the value, and `_create_table` on the invalid name returns the
validation error with the state untouched. -/
theorem c8_witness :
    validate_identifier (.pyStr "abc_1") = .ok () ∧
    validate_identifier (.pyStr "a;b") =
      .error (.valueError (.invalidChars "a;b")) ∧
    create_table emptyState (.pyStr "a;b") "GDP" =
      (emptyState, some (.valueError (.invalidChars "a;b"))) :=
  ⟨(c8_amended_validator_contract.1 "abc_1").mpr (by decide),
   c8_amended_validator_contract.2.1 "a;b" (by decide),
   c8_amended_validator_contract.2.2.2.2.1 emptyState _ "GDP" _ (by decide)⟩
